import Mathlib

/-!
Verification of the matrix-sed bot (crates/matrix-sed) against its
natural-language specification.  The data model and the operations are a
shallow embedding of `src/main.rs` and `src/handlers.rs`; external
collaborators (matrix-sdk, ruma, the `similar` and `sedregex` crates) are
either taken as oracle parameters or modelled from the spec, as marked on
each definition.
-/

namespace MatrixSed

/-- Room membership state of the bot, as inspected by `on_room_message`
(`room.state() != RoomState::Joined`). -/
inductive RoomState where
  | joined
  | left
  | invited
  deriving DecidableEq

/-- The message content kind: `MessageType::Text` carries the body, every
other message type makes the handler return early. -/
inductive MsgType where
  | text (body : List Char)
  | notText
  deriving DecidableEq

/-- The relation descriptor of an incoming message (`event.content.relates_to`):
a direct reply, a thread reply (root, optional in-reply-to, fallback flag), or
any other relation kind. Event ids are abstracted as naturals. -/
inductive Relation where
  | reply (in_reply_to : Nat)
  | thread (root : Nat) (in_reply_to : Option Nat) (is_falling_back : Bool)
  | other
  deriving DecidableEq

/-- A resolved target message: id, body text, and the root of the thread it
carries a thread relation to, if any. -/
structure TargetMsg where
  event_id : Nat
  body : List Char
  thread_root : Option Nat
  deriving DecidableEq

/-- A deserialized timeline event: either an original (non-redacted)
message-like room message, or anything else (redacted events, state events,
reactions, ...), which `on_room_message` filters out. -/
inductive AnyTimelineEvent where
  | messageOriginal (m : TargetMsg)
  | otherEvent
  deriving DecidableEq

/-- The result of `raw().deserialize()`: deserialization can fail, which the
handler propagates as an error. -/
abbrev RawEvent := Except Unit AnyTimelineEvent

/-- The room handle as used by `on_room_message`: its state, `room.event(id)`
(fetch by id, may fail), and `room.event_with_context(id).events_before`. -/
structure RoomModel where
  state : RoomState
  fetchEvent : Nat → Except Unit RawEvent
  contextBefore : Nat → Except Unit (List RawEvent)

/-- An incoming room message event as consumed by `on_room_message`. -/
structure IncomingEvent where
  event_id : Nat
  msgtype : MsgType
  relates_to : Option Relation

/-- Errors `on_room_message` can return (the `?` operators in the handler):
fetch failure, deserialization failure, context-fetch failure, and a
malformed sed command. -/
inductive HandlerError where
  | fetchFailed
  | deserFailed
  | contextFailed
  | malformedCommand
  deriving DecidableEq

/- ### Reply-prefix stripping -/

/-- Split a character list into lines at newline characters. -/
def splitLines : List Char → List (List Char)
  | [] => [[]]
  | c :: t =>
    match splitLines t with
    | x :: xs => if c = '\n' then [] :: x :: xs else (c :: x) :: xs
    | [] => [[c]]

/-- Rejoin lines with newline characters. -/
def joinLines : List (List Char) → List Char
  | [] => []
  | [x] => x
  | x :: y :: xs => x ++ '\n' :: joinLines (y :: xs)

/-- Does a line start with the quoted-reply marker `> `? -/
def is_quote_line (l : List Char) : Bool := decide (l.take 2 = ['>', ' '])

/-- Modelled from the spec: ruma's `remove_plain_reply_fallback` (external to
this repository) strips the quoted-reply fallback prefix, i.e. the leading
lines starting with `> `. -/
def remove_plain_reply_fallback (l : List Char) : List Char :=
  joinLines ((splitLines l).dropWhile is_quote_line)

/- ### CommandParser: the two regexes of `on_room_message` -/

/-- Is the character in the regex class `[a-zA-Z0-9]`? -/
def isAlnum (c : Char) : Bool :=
  (decide ('a' ≤ c) && decide (c ≤ 'z'))
    || (decide ('A' ≤ c) && decide (c ≤ 'Z'))
    || (decide ('0' ≤ c) && decide (c ≤ '9'))

/-- Is the character in the regex class `[#/]` of `MATCH_PATTERN`? -/
def isDelim (c : Char) : Bool := decide (c = '#') || decide (c = '/')

/-- The boundary alternative `(?:^|[^a-zA-Z0-9])` of `MATCH_COMMAND`:
start of string, or a non-alphanumeric previous character. -/
def boundaryOk : Option Char → Bool
  | none => true
  | some c => !isAlnum c

/-- Try to match `sed (s.+)` at the head of the list: the literal `sed `,
then `s`, then at least one non-newline character; the capture runs from the
`s` to the end of the line (`.` does not match newlines, `.+` is greedy). -/
def sedHere : List Char → Option (List Char)
  | 's' :: 'e' :: 'd' :: ' ' :: 's' :: tail =>
    let cap := tail.takeWhile (fun c => decide (c ≠ '\n'))
    if cap.isEmpty then none else some ('s' :: cap)
  | _ => none

/-- Scan for the leftmost match of `MATCH_COMMAND`
(`(?:^|[^a-zA-Z0-9])sed (s.+)`), returning capture group 1. -/
def findSed (prev : Option Char) : List Char → Option (List Char)
  | [] => none
  | c :: t =>
    match (if boundaryOk prev then sedHere (c :: t) else none) with
    | some cap => some cap
    | none => findSed (some c) t

/-- Matcher for the suffix regex `[#/].+$`: a delimiter followed by at least
one character, none of them a newline. -/
def part2 : List Char → Bool
  | [] => false
  | d :: q => isDelim d && !q.isEmpty && q.all (fun c => decide (c ≠ '\n'))

/-- Matcher for the suffix regex `.+[#/].+$`: a nonempty newline-free
segment, a delimiter, and a nonempty newline-free segment reaching the end. -/
def part1 : List Char → Bool
  | [] => false
  | c :: rest => decide (c ≠ '\n') && (part2 rest || part1 rest)

/-- The whole-message regex `MATCH_PATTERN` = `^(s[#/].+[#/].+)$`. -/
def matchesPattern : List Char → Bool
  | c :: d :: rest => decide (c = 's') && isDelim d && part1 rest
  | _ => false

/-- The command extraction of `on_room_message` (handlers.rs lines 77-88):
first `MATCH_COMMAND` (capture group 1), then `MATCH_PATTERN` (capture group
1, which spans the entire body), else no command. -/
def parseCommand (body : List Char) : Option (List Char) :=
  match findSed none body with
  | some cap => some cap
  | none => if matchesPattern body then some body else none

/- ### TargetResolver -/

/-- The target event id computed by the `relates_to` closure in
`on_room_message` (handlers.rs lines 93-112): a direct reply yields the
replied-to id; a thread reply yields its in-reply-to id in both the
fallback and the non-fallback branch; anything else yields none. -/
def targetIdOf : Option Relation → Option Nat
  | some (.reply e) => some e
  | some (.thread _ irt fb) => if fb then irt else irt
  | some .other => none
  | none => none

/-- The `thread_root` variable set by the same closure: the thread root when
the incoming message carries a thread relation. -/
def threadRootOf : Option Relation → Option Nat
  | some (.thread r _ _) => some r
  | _ => none

/-- Target resolution (handlers.rs lines 93-131): if the relation yields a
target id, fetch it by id and deserialize (both failures propagate);
otherwise fetch the event context and take the first preceding event,
returning no target when there is none. -/
def resolveTarget (room : RoomModel) (event_id : Nat) (rel : Option Relation) :
    Except HandlerError (Option AnyTimelineEvent) :=
  match targetIdOf rel with
  | some tid =>
    match room.fetchEvent tid with
    | .error _ => .error HandlerError.fetchFailed
    | .ok (.error _) => .error HandlerError.deserFailed
    | .ok (.ok tev) => .ok (some tev)
  | none =>
    match room.contextBefore event_id with
    | .error _ => .error HandlerError.contextFailed
    | .ok [] => .ok none
    | .ok (.error _ :: _) => .error HandlerError.deserFailed
    | .ok (.ok tev :: _) => .ok (some tev)

/- ### DiffRenderer -/

/-- Diff segment tags, as in the `similar` crate's `ChangeTag`. -/
inductive DTag where
  | equal
  | delete
  | insert
  deriving DecidableEq

/-- Is the character whitespace, for word splitting? -/
def isWs (c : Char) : Bool :=
  decide (c = ' ') || decide (c = '\t') || decide (c = '\n') || decide (c = '\r')

/-- Modelled from the spec: the word tokenizer of the `similar` crate's
`TextDiff::from_words` (external), grouping maximal runs of whitespace and
non-whitespace characters. -/
def splitWords : List Char → List (List Char)
  | [] => []
  | c :: t =>
    match splitWords t with
    | (d :: w) :: ws =>
      if isWs d = isWs c then (c :: d :: w) :: ws else [c] :: (d :: w) :: ws
    | other => [c] :: other

/-- Fuel-indexed longest-common-subsequence length on token lists. -/
def lcsLenF : Nat → List (List Char) → List (List Char) → Nat
  | 0, _, _ => 0
  | _ + 1, [], _ => 0
  | _ + 1, _ :: _, [] => 0
  | f + 1, a :: as, b :: bs =>
    if a = b then lcsLenF f as bs + 1
    else max (lcsLenF f as (b :: bs)) (lcsLenF f (a :: as) bs)

/-- Longest-common-subsequence length on token lists. -/
def lcsLen (a b : List (List Char)) : Nat := lcsLenF (a.length + b.length) a b

/-- Fuel-indexed word-level diff: emits equal segments for common tokens and
delete/insert segments chosen along a longest common subsequence. -/
def diffWordsF : Nat → List (List Char) → List (List Char) → List (DTag × List Char)
  | 0, _, _ => []
  | _ + 1, [], [] => []
  | f + 1, [], b :: bs => (DTag.insert, b) :: diffWordsF f [] bs
  | f + 1, a :: as, [] => (DTag.delete, a) :: diffWordsF f as []
  | f + 1, a :: as, b :: bs =>
    if a = b then (DTag.equal, a) :: diffWordsF f as bs
    else if lcsLen (a :: as) bs ≤ lcsLen as (b :: bs) then
      (DTag.delete, a) :: diffWordsF f as (b :: bs)
    else (DTag.insert, b) :: diffWordsF f (a :: as) bs

/-- Modelled from the spec: the word-granularity diff of the `similar` crate
(external), as an ordered sequence of tagged segments. -/
def diffWords (a b : List (List Char)) : List (DTag × List Char) :=
  diffWordsF (a.length + b.length) a b

/-- Rendering of one diff segment (handlers.rs lines 156-160): equal text
passes through, deleted text is dropped, inserted text is wrapped in `<u>`
markers. -/
def renderSegment : DTag × List Char → List Char
  | (DTag.equal, t) => t
  | (DTag.delete, _) => []
  | (DTag.insert, t) => "<u>".data ++ t ++ "</u>".data

/-- The diff markup built by `on_room_message` (handlers.rs lines 150-161):
word-diff the old and new text and concatenate the rendered segments in
order. -/
def renderDiff (old new : List Char) : List Char :=
  ((diffWords (splitWords old) (splitWords new)).map renderSegment).flatten

/- ### Outgoing message construction -/

/-- The plain/formatted content pair of `notice_html`. -/
structure OutContent where
  body : List Char
  formatted : List Char
  deriving DecidableEq

/-- `RoomMessageEventContent::notice_html(plain, html)`: the plain body and
the HTML formatted body. -/
def notice_html (body formatted : List Char) : OutContent := ⟨body, formatted⟩

/-- The relation attached to the outgoing message: a plain reply, or a reply
inside a thread (root, in-reply-to, fallback flag). -/
inductive OutRelation where
  | reply (in_reply_to : Nat)
  | thread (root : Nat) (in_reply_to : Nat) (is_falling_back : Bool)
  deriving DecidableEq

/-- An outgoing room message: content plus relation. -/
structure OutMessage where
  content : OutContent
  relation : OutRelation
  deriving DecidableEq

/-- Modelled from the spec: ruma's `make_for_thread(target,
ReplyWithinThread::Yes, ..)` (external) always constructs an in-thread
reply: the thread root is the target's own thread root when it has one and
the target itself otherwise, with in-reply-to the target and no fallback
flag. -/
def make_for_thread (c : OutContent) (t : TargetMsg) : OutMessage :=
  ⟨c, OutRelation.thread (t.thread_root.getD t.event_id) t.event_id false⟩

/-- Modelled from the spec: ruma's `make_reply_to(target, ForwardThread::Yes,
..)` (external) constructs a reply that is forwarded into the target's
thread (as a fallback thread reply) when the target carries a thread
relation, and a plain reply otherwise. -/
def make_reply_to (c : OutContent) (t : TargetMsg) : OutMessage :=
  match t.thread_root with
  | some r => ⟨c, OutRelation.thread r t.event_id true⟩
  | none => ⟨c, OutRelation.reply t.event_id⟩

/-- The outgoing-message branch of `on_room_message` (handlers.rs lines
163-177): `make_for_thread` when the incoming message carried a thread
relation (`thread_root.is_some()`), else `make_reply_to`. -/
def buildMessage (thread_root : Option Nat) (c : OutContent) (t : TargetMsg) :
    OutMessage :=
  match thread_root with
  | some _ => make_for_thread c t
  | none => make_reply_to c t

/-- The thread the resolved target belongs to, if any: the root of its own
thread relation, or, when it has none, the incoming command's thread root
(in well-formed histories the target is then that thread's root itself). -/
def threadOf (thread_root : Option Nat) (t : TargetMsg) : Option Nat :=
  match t.thread_root with
  | some r => some r
  | none => thread_root

/-- Does the outgoing relation post inside the thread rooted at `root`, in
reply to `irt`? -/
def isInThread (rel : OutRelation) (root irt : Nat) : Bool :=
  match rel with
  | OutRelation.thread r i _ => decide (r = root) && decide (i = irt)
  | OutRelation.reply _ => false

/- ### The full message handler -/

/-- The `on_room_message` handler (handlers.rs lines 64-181). The sed
engine (the external `sedregex` crate) is an oracle parameter: it compiles a
command to a text transformer or fails. Returns the message handed to
`room.send` (if any) or the error the handler propagates; `send` delivery
failures are logged and ignored in the source, so the sent message itself is
the observable outcome. -/
def on_room_message (sed_compile : List Char → Except Unit (List Char → List Char))
    (room : RoomModel) (event : IncomingEvent) :
    Except HandlerError (Option OutMessage) :=
  if room.state ≠ RoomState.joined then Except.ok none
  else
    match event.msgtype with
    | MsgType.notText => Except.ok none
    | MsgType.text raw_body =>
      match parseCommand (remove_plain_reply_fallback raw_body) with
      | none => Except.ok none
      | some command =>
        match resolveTarget room event.event_id event.relates_to with
        | .error e => .error e
        | .ok none => .ok none
        | .ok (some AnyTimelineEvent.otherEvent) => .ok none
        | .ok (some (AnyTimelineEvent.messageOriginal m)) =>
          let target_text := remove_plain_reply_fallback m.body
          match sed_compile command with
          | .error _ => .error HandlerError.malformedCommand
          | .ok f =>
            let result := f target_text
            let changes := renderDiff target_text result
            .ok (some (buildMessage (threadRootOf event.relates_to)
              (notice_html result changes) m))

/- ### MembershipHandler: autojoin backoff -/

/-- Fuel-indexed autojoin retry loop (handlers.rs lines 38-60): attempt the
join; on failure record a sleep of `delay` seconds, double the delay, and
give up once the doubled delay exceeds 3600; otherwise retry. Returns the
recorded sleep delays in order and whether the join succeeded. -/
def autojoinGo (join : Nat → Bool) : Nat → Nat → Nat → List Nat → List Nat × Bool
  | 0, _, _, sleeps => (sleeps.reverse, false)
  | fuel + 1, n, delay, sleeps =>
    if join n then (sleeps.reverse, true)
    else
      if delay * 2 > 3600 then ((delay :: sleeps).reverse, false)
      else autojoinGo join fuel (n + 1) (delay * 2) (delay :: sleeps)

/-- The autojoin task spawned by `on_stripped_state_member`: delay starts at
2 seconds; 12 units of fuel are enough since the give-up ceiling is reached
after 11 failures. -/
def autojoin (join : Nat → Bool) : List Nat × Bool := autojoinGo join 12 0 2 []

/- ### SessionLifecycleManager: the fresh-login loop -/

/-- Outcome of the `login` function in main.rs: either a successful login,
or the process dies at `.expect("A logged-in client should have a session")`
after the loop exited without being logged in. -/
inductive LoginOutcome where
  | success
  | panicked
  deriving DecidableEq

/-- Fuel-indexed login loop (main.rs lines 181-209): each round takes the
configured password if present, otherwise prompts; on a failed attempt the
loop breaks when a password was configured and re-prompts otherwise.
Returns whether the loop exited logged in, and the number of attempts;
`none` when the fuel runs out (the interactive path can loop forever). -/
def login_loop (configured : Option (List Char)) (prompt : Nat → List Char)
    (attempt : Nat → List Char → Bool) : Nat → Nat → Option (Bool × Nat)
  | 0, _ => none
  | fuel + 1, n =>
    let password := match configured with | some p => p | none => prompt n
    if attempt n password then some (true, n + 1)
    else if configured.isSome then some (false, n + 1)
    else login_loop configured prompt attempt fuel (n + 1)

/-- The `login` function (main.rs lines 146-228): after the loop, the source
calls `matrix_auth.session().expect("A logged-in client should have a
session")`; the session exists only when a login attempt succeeded, so
exiting the loop without being logged in panics instead of returning an
error result. -/
def login (configured : Option (List Char)) (prompt : Nat → List Char)
    (attempt : Nat → List Char → Bool) (fuel : Nat) : Option (LoginOutcome × Nat) :=
  match login_loop configured prompt attempt fuel 0 with
  | none => none
  | some (true, k) => some (LoginOutcome.success, k)
  | some (false, k) => some (LoginOutcome.panicked, k)

/- ### SyncLoop: the steady-state loop -/

/-- One sync round's response: the `next_batch` cursor. -/
structure SyncResponse where
  next_batch : List Char
  deriving DecidableEq

/-- The persisted session file, reduced to the sync cursor it stores. -/
structure SessionFile where
  sync_token : Option (List Char)
  deriving DecidableEq

/-- The `LoopCtrl` values the sync callback can return. -/
inductive SyncCtrl where
  | cont
  | brk
  deriving DecidableEq

/-- The steady-state sync callback (main.rs lines 323-332): `let response =
sync_result?;` propagates a failed round as an error; on success the cursor
is persisted and the callback returns `LoopCtrl::Continue`. -/
def syncCallback (_s : SessionFile) (sync_result : Except Unit SyncResponse) :
    Except Unit (SyncCtrl × SessionFile) :=
  match sync_result with
  | Except.error e => Except.error e
  | Except.ok response => Except.ok (SyncCtrl.cont, ⟨some response.next_batch⟩)

/-- Modelled from the spec: the external sync driver
(`sync_with_result_callback`, not part of this repository) feeds each
round's result to the callback; per the spec's termination clause an error
from the callback stops the loop and is propagated to the caller, while
`Continue` moves to the next round. The input list is the sequence of round
outcomes; the result is the final session file and the propagated error, if
any. -/
def syncWithCallback : List (Except Unit SyncResponse) → SessionFile →
    SessionFile × Option Unit
  | [], s => (s, none)
  | r :: rest, s =>
    match syncCallback s r with
    | Except.error e => (s, some e)
    | Except.ok (SyncCtrl.brk, s2) => (s2, none)
    | Except.ok (SyncCtrl.cont, s2) => syncWithCallback rest s2

/-!
### Theorems
-/

/-- C1, counterexample: with a failed first round followed by a successful
round, the steady-state loop stops at the failure and propagates it — the
persisted cursor is left unchanged (still `none`, never advanced to `t2`),
and the successful second round is never processed; by contrast a successful
first round advances the cursor. This refutes the claim that a failed round
never terminates the loop. -/
theorem c1_failed_round_terminates_loop :
    syncWithCallback [Except.error (), Except.ok ⟨"t2".data⟩] ⟨none⟩ = (⟨none⟩, some ())
      ∧ syncWithCallback [Except.ok ⟨"t2".data⟩] ⟨none⟩ = (⟨some ("t2".data)⟩, none) :=
  ⟨rfl, rfl⟩

/-- C1, amended: a failed synchronization round never advances the persisted
sync cursor, but it does terminate the steady-state loop: the callback
propagates the error (`let response = sync_result?;`), the driver stops, and
the error is returned to the caller with the session file unchanged and all
remaining rounds unprocessed. -/
theorem c1_failed_round_keeps_cursor (e : Unit)
    (rest : List (Except Unit SyncResponse)) (s : SessionFile) :
    syncCallback s (Except.error e) = Except.error e
      ∧ syncWithCallback (Except.error e :: rest) s = (s, some e) :=
  ⟨rfl, rfl⟩

/-- C2, code bug: with an explicitly configured password and a failing login
attempt, the login loop makes exactly one attempt and breaks, after which
`matrix_auth.session().expect("A logged-in client should have a session")`
panics — the process dies instead of returning an `AuthFailed` error result
to the caller. -/
theorem c2_configured_password_failure_panics :
    login (some ("pw".data)) (fun _ => []) (fun _ _ => false) 5 =
      some (LoginOutcome.panicked, 1) :=
  rfl

/-- C3: for the outgoing message constructed by the handler, whenever the
resolved target belongs to a thread (its own thread relation's root, or the
command's thread root — in which case a well-formed history makes the target
that very root), the message is built as a reply inside that thread; when it
belongs to no thread, the message is a normal reply to the target. -/
theorem c3_outgoing_message_shape (thread_root : Option Nat) (c : OutContent)
    (t : TargetMsg)
    (hwf : ∀ R, thread_root = some R → t.thread_root = none → R = t.event_id) :
    (∀ r, threadOf thread_root t = some r →
      isInThread (buildMessage thread_root c t).relation r t.event_id = true)
      ∧ (threadOf thread_root t = none →
      (buildMessage thread_root c t).relation = OutRelation.reply t.event_id) := by
  rcases t with ⟨eid, tbody, troot⟩
  cases troot with
  | some r0 =>
    cases thread_root with
    | none =>
      refine ⟨?_, ?_⟩
      · intro r hr
        simp only [threadOf, Option.some.injEq] at hr
        subst hr
        simp [buildMessage, make_reply_to, isInThread]
      · intro hnone
        simp [threadOf] at hnone
    | some R =>
      refine ⟨?_, ?_⟩
      · intro r hr
        simp only [threadOf, Option.some.injEq] at hr
        subst hr
        simp [buildMessage, make_for_thread, isInThread]
      · intro hnone
        simp [threadOf] at hnone
  | none =>
    cases thread_root with
    | none =>
      refine ⟨?_, ?_⟩
      · intro r hr
        simp [threadOf] at hr
      · intro _
        simp [buildMessage, make_reply_to]
    | some R =>
      have hR : R = eid := hwf R rfl rfl
      subst hR
      refine ⟨?_, ?_⟩
      · intro r hr
        simp only [threadOf, Option.some.injEq] at hr
        subst hr
        simp [buildMessage, make_for_thread, isInThread]
      · intro hnone
        simp [threadOf] at hnone

/-- C3, witness: a command issued in the thread rooted at event 5, whose
resolved target (event 7) carries a thread relation back to root 5, yields a
message posted within thread 5 in reply to event 7. -/
theorem c3_outgoing_message_shape_witness :
    isInThread (buildMessage (some 5) ⟨[], []⟩ ⟨7, [], some 5⟩).relation 5 7 = true :=
  (c3_outgoing_message_shape (some 5) ⟨[], []⟩ ⟨7, [], some 5⟩
    (fun _ _ h => Option.noConfusion h)).1 5 rfl

/-- C4, counterexample: the body `s,foo,bar,` is a sed-style expression in
the claim's sense — `s`, a delimiter `,`, and two further comma-separated
parts — yet `CommandParser` extracts nothing from it, because the
whole-message regex `^(s[#/].+[#/].+)$` only admits `#` and `/` as the
character after `s`. -/
theorem c4_non_slash_hash_delimiter_rejected :
    ("s,foo,bar,".data = 's' :: ',' :: ("foo".data ++ ',' :: "bar,".data))
      ∧ parseCommand ("s,foo,bar,".data) = none :=
  ⟨rfl, rfl⟩

/-- Auxiliary for C4: a nonempty newline-free segment prepended to a
delimiter-led tail keeps the `.+[#/].+` matcher satisfied. -/
theorem part1_of_parts (p q : List Char) (d2 : Char) (hp : p ≠ [])
    (hpn : ∀ c ∈ p, c ≠ '\n') (h2 : part2 (d2 :: q) = true) :
    part1 (p ++ d2 :: q) = true := by
  induction p with
  | nil => exact absurd rfl hp
  | cons a p ih =>
    have ha : a ≠ '\n' := hpn a (by simp)
    cases p with
    | nil =>
      show (decide (a ≠ '\n') && (part2 (d2 :: q) || part1 (d2 :: q))) = true
      simp [h2, ha]
    | cons b p2 =>
      have hrest : part1 ((b :: p2) ++ d2 :: q) = true :=
        ih (by simp) (fun c hc => hpn c (by simp [hc]))
      show (decide (a ≠ '\n')
          && (part2 ((b :: p2) ++ d2 :: q) || part1 ((b :: p2) ++ d2 :: q))) = true
      simp only [Bool.and_eq_true, Bool.or_eq_true, decide_eq_true_eq]
      exact ⟨ha, Or.inr hrest⟩

/-- C4, amended: for every (reply-prefix-stripped) body that is entirely a
sed-style expression with delimiters drawn from `#` and `/` — `s`, then `#`
or `/`, then a nonempty newline-free part, then `#` or `/`, then a nonempty
newline-free part — and that does not also match the higher-precedence
embedded `sed ` pattern, CommandParser extracts the whole body as the
candidate command. -/
theorem c4_whole_body_extraction (body p q : List Char) (d1 d2 : Char)
    (hbody : body = 's' :: d1 :: (p ++ d2 :: q))
    (hd1 : isDelim d1 = true) (hd2 : isDelim d2 = true)
    (hp : p ≠ []) (hq : q ≠ [])
    (hpn : ∀ c ∈ p, c ≠ '\n') (hqn : ∀ c ∈ q, c ≠ '\n')
    (hcmd : findSed none body = none) :
    parseCommand body = some body := by
  have h2 : part2 (d2 :: q) = true := by
    cases q with
    | nil => exact absurd rfl hq
    | cons b qs =>
      simp only [part2, hd2, List.isEmpty_cons, Bool.not_false, Bool.true_and,
        List.all_eq_true, decide_eq_true_eq]
      exact fun c hc => hqn c hc
  have hpat : matchesPattern body = true := by
    subst hbody
    show (decide ('s' = 's') && isDelim d1 && part1 (p ++ d2 :: q)) = true
    rw [hd1, part1_of_parts p q d2 hp hpn h2]
    decide
  simp [parseCommand, hcmd, hpat]

/-- C4, witness: the stripped body `s#foo#bar#` decomposes as required and
is extracted whole. -/
theorem c4_whole_body_extraction_witness :
    parseCommand ("s#foo#bar#".data) = some ("s#foo#bar#".data) :=
  c4_whole_body_extraction ("s#foo#bar#".data) ("foo".data) ("bar#".data) '#' '#'
    rfl rfl rfl (by decide) (by decide) (by decide) (by decide) rfl

/-- C5: when every join attempt fails, the autojoin task sleeps the doubling
sequence 2, 4, 8, ..., 2048 seconds between attempts and then gives up for
good — after sleeping 2048s the doubled delay 4096 exceeds the 3600s
ceiling, the loop breaks without joining, and no further attempt is made for
that invite. -/
theorem c5_backoff_doubles_then_gives_up (join : Nat → Bool)
    (h : ∀ n, join n = false) :
    autojoin join = ([2, 4, 8, 16, 32, 64, 128, 256, 512, 1024, 2048], false) := by
  have hj : join = fun _ => false := funext h
  subst hj
  rfl

/-- C5, witness: the always-failing join oracle. -/
theorem c5_backoff_doubles_then_gives_up_witness :
    autojoin (fun _ => false) =
      ([2, 4, 8, 16, 32, 64, 128, 256, 512, 1024, 2048], false) :=
  c5_backoff_doubles_then_gives_up (fun _ => false) (fun _ => rfl)

/-- C6: a message whose relation is a direct reply to event `E` resolves its
target by fetching `E` by id; when `E` is a valid original message-like
event the resolver returns exactly that event, whatever the room's
preceding-event context holds — the implicit previous-event fallback is
never consulted. -/
theorem c6_direct_reply_resolves_by_id (st : RoomState)
    (fetch : Nat → Except Unit RawEvent) (ctx : Nat → Except Unit (List RawEvent))
    (eid E : Nat) (m : TargetMsg)
    (hfetch : fetch E = Except.ok (Except.ok (AnyTimelineEvent.messageOriginal m))) :
    resolveTarget ⟨st, fetch, ctx⟩ eid (some (Relation.reply E)) =
      Except.ok (some (AnyTimelineEvent.messageOriginal m)) := by
  simp [resolveTarget, targetIdOf, hfetch]

/-- C6, witness: event 7 is a valid original message; the context offers a
tempting implicit candidate (event 3) which is ignored. -/
theorem c6_direct_reply_resolves_by_id_witness :
    resolveTarget
      ⟨RoomState.joined,
        fun n => if n = 7
          then Except.ok (Except.ok (AnyTimelineEvent.messageOriginal ⟨7, [], none⟩))
          else Except.error (),
        fun _ => Except.ok [Except.ok (AnyTimelineEvent.messageOriginal ⟨3, [], none⟩)]⟩
      9 (some (Relation.reply 7)) =
      Except.ok (some (AnyTimelineEvent.messageOriginal ⟨7, [], none⟩)) :=
  c6_direct_reply_resolves_by_id RoomState.joined _ _ 9 7 ⟨7, [], none⟩ rfl

/-- C7: on the spec's example the word diff of `the cat sat` and
`the dog sat` marks `dog` inserted and `cat` deleted, `renderDiff`
concatenates the segments — equal text verbatim, deleted text dropped,
inserted text wrapped in an underline marker — yielding markup
`the <u>dog</u> sat`, while the outgoing plain body is exactly the
substituted text `the dog sat`. -/
theorem c7_render_diff_example :
    diffWords (splitWords ("the cat sat".data)) (splitWords ("the dog sat".data)) =
      [(DTag.equal, "the".data), (DTag.equal, " ".data), (DTag.delete, "cat".data),
        (DTag.insert, "dog".data), (DTag.equal, " ".data), (DTag.equal, "sat".data)]
      ∧ renderDiff ("the cat sat".data) ("the dog sat".data) = "the <u>dog</u> sat".data
      ∧ (notice_html ("the dog sat".data)
          (renderDiff ("the cat sat".data) ("the dog sat".data))).body = "the dog sat".data :=
  ⟨rfl, rfl, rfl⟩

/-- C8, counterexample: a command replying to event 7 whose fetched raw
content fails to deserialize makes the handler return the deserialization
error (`raw().deserialize()?`) — it sends nothing, but it does not complete
without error as the claim states. -/
theorem c8_deserialize_failure_returns_error :
    on_room_message (fun _ => Except.ok (fun t => t))
      ⟨RoomState.joined, fun _ => Except.ok (Except.error ()), fun _ => Except.ok []⟩
      ⟨1, MsgType.text ("sed s/a/b/".data), some (Relation.reply 7)⟩ =
      Except.error HandlerError.deserFailed :=
  rfl

/-- C8, amended: whenever the event fetched by id deserializes to a timeline
event that is not an original message-like room message (redacted, state,
reaction, ...), the command is silently dropped: the handler sends nothing
and returns successfully. (When raw deserialization itself fails, nothing is
sent either, but the handler returns the error instead of succeeding.) -/
theorem c8_invalid_target_silently_dropped
    (sed_compile : List Char → Except Unit (List Char → List Char))
    (fetch : Nat → Except Unit RawEvent) (ctx : Nat → Except Unit (List RawEvent))
    (eid : Nat) (raw_body command : List Char) (rel : Option Relation) (E : Nat)
    (hparse : parseCommand (remove_plain_reply_fallback raw_body) = some command)
    (hrel : targetIdOf rel = some E)
    (hfetch : fetch E = Except.ok (Except.ok AnyTimelineEvent.otherEvent)) :
    on_room_message sed_compile ⟨RoomState.joined, fetch, ctx⟩
      ⟨eid, MsgType.text raw_body, rel⟩ = Except.ok none := by
  simp [on_room_message, resolveTarget, hparse, hrel, hfetch]

/-- C8, witness: a reply-command whose target deserializes to a
non-message-like event is dropped with a successful, message-free result. -/
theorem c8_invalid_target_silently_dropped_witness :
    on_room_message (fun _ => Except.ok (fun t => t))
      ⟨RoomState.joined, fun _ => Except.ok (Except.ok AnyTimelineEvent.otherEvent),
        fun _ => Except.ok []⟩
      ⟨1, MsgType.text ("sed s/a/b/".data), some (Relation.reply 7)⟩ = Except.ok none :=
  c8_invalid_target_silently_dropped (fun _ => Except.ok (fun t => t)) _ _ 1
    ("sed s/a/b/".data) ("s/a/b/".data) (some (Relation.reply 7)) 7 rfl rfl rfl

/-- C9: for a thread relation carrying an in-reply-to id, the target id used
by the resolver is exactly that id whether or not the relation is flagged as
a synthetic fallback, and the whole resolution is identical for the flag set
and cleared. -/
theorem c9_fallback_flag_irrelevant (root irt : Nat) (fb fb' : Bool) :
    targetIdOf (some (Relation.thread root (some irt) fb)) = some irt
      ∧ ∀ (room : RoomModel) (eid : Nat),
        resolveTarget room eid (some (Relation.thread root (some irt) fb)) =
          resolveTarget room eid (some (Relation.thread root (some irt) fb')) := by
  refine ⟨?_, ?_⟩
  · cases fb <;> rfl
  · intro room eid
    cases fb <;> cases fb' <;> rfl

/-- C10: when the room is not joined, or the incoming message is not a text
message, the handler returns successfully without sending anything — and
since this holds for arbitrary (even always-failing) fetch, context and sed
oracles, no parsing, resolution or sending is ever attempted. -/
theorem c10_non_joined_or_non_text_ignored
    (sed_compile : List Char → Except Unit (List Char → List Char))
    (room : RoomModel) (event : IncomingEvent)
    (h : room.state ≠ RoomState.joined ∨ event.msgtype = MsgType.notText) :
    on_room_message sed_compile room event = Except.ok none := by
  rcases h with h | h
  · simp [on_room_message, h]
  · by_cases hs : room.state = RoomState.joined
    · simp [on_room_message, hs, h]
    · simp [on_room_message, hs]

/-- C10, witness: a text command arriving in a room the bot has left is
ignored even though every oracle would fail if consulted. -/
theorem c10_non_joined_or_non_text_ignored_witness :
    on_room_message (fun _ => Except.error ())
      ⟨RoomState.left, fun _ => Except.error (), fun _ => Except.error ()⟩
      ⟨1, MsgType.text ("sed s/a/b/".data), none⟩ = Except.ok none :=
  c10_non_joined_or_non_text_ignored (fun _ => Except.error ())
    ⟨RoomState.left, fun _ => Except.error (), fun _ => Except.error ()⟩
    ⟨1, MsgType.text ("sed s/a/b/".data), none⟩ (Or.inl (by decide))

end MatrixSed
